import Mathlib

/-!
Verification of the spending-trend analysis and forecasting module of the
Personal Finance Tracker (Go). The handler code (`calculateSpendingTrends`,
`calculatePrediction`, `getHistoricalAverage`, `GetSpendingTrends`) is embedded
shallowly below. Monetary amounts (Go `float64`) are modelled as exact
rationals; the Go standard library `time` package (an external collaborator of
the repository) is modelled at day resolution: a point in time is a count of days
since 1970-01-01 in the proleptic Gregorian calendar, and the civil
conversions mirror the stepwise 400/100/4/1-year decomposition used by Go's
`time.absDate`.
-/

namespace FinanceTracker

/- A point in time is modelled at day resolution as an `Int`: the count of
days since 1970-01-01 (UTC midnight). All `time.Time` values occurring in
the analysed code are midnights. -/

/-- Model of Go `isLeap`: Gregorian leap-year rule. -/
def isLeap (y : Int) : Bool := y % 4 == 0 && (y % 100 != 0 || y % 400 == 0)

/-- Number of days in a civil month. -/
def daysInMonth (y m : Int) : Int :=
  if m = 2 then (if isLeap y then 29 else 28)
  else if m = 4 ∨ m = 6 ∨ m = 9 ∨ m = 11 then 30
  else 31

/-- Shifted year used for the civil-to-absolute conversion: January and
February count with the preceding year so the leap day ends the year. -/
def yAdjFC (y m : Int) : Int := if m ≤ 2 then y - 1 else y

/-- 400-year era of a civil year/month. -/
def eraFC (y m : Int) : Int := yAdjFC y m / 400

/-- Year of the era of a civil year/month, in `[0, 399]`. -/
def yoeFC (y m : Int) : Int := yAdjFC y m - eraFC y m * 400

/-- March-first month index of a civil month (0 = March, 11 = February). -/
def mpFC (m : Int) : Int := if m > 2 then m - 3 else m + 9

/-- Day of the March-first year of a civil month/day, in `[0, 365]`. -/
def doyFC (m d : Int) : Int := (153 * mpFC m + 2) / 5 + d - 1

/-- Day of the era of a civil triple, in `[0, 146096]`. -/
def doeFC (y m d : Int) : Int :=
  yoeFC y m * 365 + yoeFC y m / 4 - yoeFC y m / 100 + doyFC m d

/-- Model of the civil-to-absolute conversion performed by Go's
`time.Date`: days since 1970-01-01 of the triple (year, month, day).
Months are counted March-first internally so that the leap day falls at the
end of the shifted year; months 0 and 13 normalise to the adjacent years,
exactly as Go's `time.Date` normalises out-of-range months. -/
def daysFromCivil (y m d : Int) : Int := eraFC y m * 146097 + doeFC y m d - 719468

/-- 400-year era of an absolute day (eras count from 0000-03-01-aligned
blocks; era 0 contains 1970-01-01). -/
def eraOf (z : Int) : Int := (z + 719468) / 146097

/-- Day within the 400-year era, in `[0, 146096]`. -/
def doeOf (z : Int) : Int := (z + 719468) % 146097

/-- Century within the era, in `[0, 3]` (capped, as in Go's `absDate`). -/
def centOf (z : Int) : Int := min (doeOf z / 36524) 3

/-- Day within the century, in `[0, 36524]`. -/
def centDayOf (z : Int) : Int := doeOf z - 36524 * centOf z

/-- Four-year cycle within the century, in `[0, 24]`. -/
def quadOf (z : Int) : Int := min (centDayOf z / 1461) 24

/-- Day within the four-year cycle, in `[0, 1460]`. -/
def quadDayOf (z : Int) : Int := centDayOf z - 1461 * quadOf z

/-- Year within the four-year cycle, in `[0, 3]` (capped, as in Go). -/
def yrOf (z : Int) : Int := min (quadDayOf z / 365) 3

/-- Day of the March-first year, in `[0, 365]`. -/
def doyOf (z : Int) : Int := quadDayOf z - 365 * yrOf z

/-- Year of the era, in `[0, 399]`. -/
def yoeOf (z : Int) : Int := 100 * centOf z + 4 * quadOf z + yrOf z

/-- March-first month index, in `[0, 11]` (0 = March). -/
def mpOf (z : Int) : Int := (5 * doyOf z + 2) / 153

/-- Civil day of month of an absolute day. -/
def dayOf (z : Int) : Int := doyOf z - (153 * mpOf z + 2) / 5 + 1

/-- Civil month of an absolute day. -/
def monthOf (z : Int) : Int := if mpOf z < 10 then mpOf z + 3 else mpOf z - 9

/-- Civil year of an absolute day. -/
def yearOf (z : Int) : Int :=
  yoeOf z + 400 * eraOf z + (if monthOf z ≤ 2 then 1 else 0)

/-- Model of Go's absolute-to-civil conversion (`time.absDate`). -/
def civilFromDays (z : Int) : Int × Int × Int := (yearOf z, monthOf z, dayOf z)

/-- Model of Go `Time.Weekday`: 0 = Sunday. 1970-01-01 was a Thursday. -/
def weekdayOf (z : Int) : Int := (z + 4) % 7

/-- Model of Go `Time.AddDate(years, months, days)`: read the civil
components, shift them, and renormalise through the civil conversion. -/
def addDate (t : Int) (years months days : Int) : Int :=
  daysFromCivil (yearOf t + years) (monthOf t + months) (dayOf t + days)

/-! ### Data model (internal/models/models.go) and configuration constants -/

/-- Expense category row (columns of `categories` used by the analysed
queries: `id`, `user_id`, `name`, `type`). -/
structure Category where
  id : Int
  userId : Int
  name : String
  type : String
deriving DecidableEq

/-- Transaction row (columns of `transactions` used by the analysed
queries: `user_id`, `category_id`, `amount`, `type`, `date`; amounts are
modelled as exact rationals). -/
structure Transaction where
  id : Int
  userId : Int
  categoryId : Int
  amount : ℚ
  type : String
  date : Int
deriving DecidableEq

/-- `models.SpendingTrend`. -/
structure SpendingTrend where
  categoryId : Int
  categoryName : String
  currentSpend : ℚ
  predictedSpend : ℚ
  trendDirection : String
  changePercent : ℚ
deriving DecidableEq

/-- `models.SpendingTrendsResponse`. -/
structure SpendingTrendsResponse where
  period : String
  date : String
  trends : List SpendingTrend
deriving DecidableEq

/-- `models.TrendDirectionTypes`. -/
structure TrendDirectionTypes where
  Up : String
  Down : String
  Stable : String
  New : String

/-- `models.TrendDirections`. -/
def TrendDirections : TrendDirectionTypes :=
  { Up := "up", Down := "down", Stable := "stable", New := "new" }

/-- `models.PredictionWeights`. -/
structure PredictionWeights where
  Current : ℚ
  Trend : ℚ
  Historical : ℚ

/-- `models.PredictionConfig`. -/
def PredictionConfig : PredictionWeights :=
  { Current := 0.4, Trend := 0.4, Historical := 0.2 }

/-- `models.TrendThresholds`. -/
structure TrendThresholds where
  UpThreshold : ℚ
  DownThreshold : ℚ

/-- `models.TrendLimits`. -/
def TrendLimits : TrendThresholds := { UpThreshold := 10, DownThreshold := -10 }

/-- `models.HistoricalPeriods`. -/
structure HistoricalPeriods where
  DayLookback : Int
  WeekLookback : Int
  MonthLookback : Int

/-- `models.HistoricalDays`. -/
def HistoricalDays : HistoricalPeriods :=
  { DayLookback := 30, WeekLookback := 84, MonthLookback := 365 }

/-- `models.PredictionFactors`. -/
structure PredictionFactors where
  ConservativeEstimate : ℚ

/-- `models.PredictionSettings`. -/
def PredictionSettings : PredictionFactors := { ConservativeEstimate := 0.8 }

/-! ### Store model

The handler talks to PostgreSQL through three read-only queries. The
database state is modelled as in-memory category and transaction tables;
each query may also fail for environmental reasons (`database/sql` errors),
modelled by one failure flag per query. -/

/-- Database state visible to the trends computation, plus failure flags for
the three queries it issues. -/
structure Store where
  categories : List Category
  transactions : List Transaction
  currentQueryFails : Bool
  prevQueryFails : Bool
  histQueryFails : Bool

/-- `WHERE c.user_id = $1 AND c.type = 'expense'`. -/
def isExpenseCatOf (userID : Int) (c : Category) : Bool :=
  c.userId == userID && c.type == "expense"

/-- The join condition of the aggregation queries:
`t.category_id = c.id AND t.user_id = $1 AND t.type = 'expense' AND
t.date >= $2 AND t.date < $3`. -/
def txnMatches (userID catID : Int) (startDate endDate : Int) (t : Transaction) : Bool :=
  t.categoryId == catID && t.userId == userID && t.type == "expense" &&
    decide (startDate ≤ t.date) && decide (t.date < endDate)

/-- `COALESCE(SUM(t.amount), 0)` over the joined transactions of one
category. -/
def spendInWindow (store : Store) (userID catID : Int) (startDate endDate : Int) : ℚ :=
  ((store.transactions.filter (txnMatches userID catID startDate endDate)).map
    Transaction.amount).sum

/-- Insertion step of the `ORDER BY amount DESC` sort. -/
def insertRow (x : Int × String × ℚ) : List (Int × String × ℚ) → List (Int × String × ℚ)
  | [] => [x]
  | y :: ys => if x.2.2 ≥ y.2.2 then x :: y :: ys else y :: insertRow x ys

/-- `ORDER BY amount DESC` (stable sort on the summed amount). -/
def sortRows (l : List (Int × String × ℚ)) : List (Int × String × ℚ) :=
  l.foldr insertRow []

/-- The current-period aggregation query of `calculateSpendingTrends`:
one row `(id, name, amount)` per expense category of the user (LEFT JOIN,
so zero-activity categories get amount 0), ordered by amount descending. -/
def currentQuery (store : Store) (userID : Int) (startDate endDate : Int) :
    List (Int × String × ℚ) :=
  sortRows ((store.categories.filter (isExpenseCatOf userID)).map
    (fun c => (c.id, c.name, spendInWindow store userID c.id startDate endDate)))

/-- The previous-period aggregation query: one row `(id, amount)` per
expense category of the user. -/
def prevQuery (store : Store) (userID : Int) (startDate endDate : Int) :
    List (Int × ℚ) :=
  (store.categories.filter (isExpenseCatOf userID)).map
    (fun c => (c.id, spendInWindow store userID c.id startDate endDate))

/-- Lookup in the `prevSpending` Go map built from the previous-period rows;
a missing key yields the zero value, as in Go. -/
def lookupPrev (rows : List (Int × ℚ)) (catID : Int) : ℚ :=
  ((rows.find? (fun r => r.1 == catID)).map Prod.snd).getD 0

/-! ### The handler functions (internal/handlers, trends part) -/

/-- The lookback switch of `getHistoricalAverage`: 30/84/365 calendar days
by period unit; a period missing from the switch leaves the count 0. -/
def lookbackDays (period : String) : Int :=
  match period with
  | "day" => 30
  | "week" => 84
  | "month" => 365
  | _ => 0

/-- `getHistoricalAverage`: mean of the individual matching expense
transaction amounts over a per-unit lookback ending at call time
(`AVG(amount)` with `COALESCE` to 0 when no rows match); the query itself
may fail. -/
def getHistoricalAverage (store : Store) (now : Int) (userID categoryID : Int)
    (period : String) : Except String ℚ :=
  let days : Int := lookbackDays period
  if store.histQueryFails then Except.error "historical query failed"
  else
    let rows := store.transactions.filter (fun t =>
      t.userId == userID && t.categoryId == categoryID && t.type == "expense" &&
        decide (now - days ≤ t.date))
    Except.ok (if rows.length = 0 then 0 else (rows.map Transaction.amount).sum / rows.length)

/-- `calculatePrediction`: weighted current/trend/historical forecast with a
conservative floor. The weight factors and the floor factor are local
literals in the function body. -/
def calculatePrediction (current previous historical : ℚ) (period : String) : ℚ :=
  let currentWeight : ℚ := 0.4
  let trendWeight : ℚ := 0.4
  let historicalWeight : ℚ := 0.2
  let trendFactor : ℚ := if previous > 0 then current - previous else 0
  let prediction :=
    current * currentWeight + trendFactor * trendWeight + historical * historicalWeight
  if prediction < 0 then current * 0.8 else prediction

/-- The trend-direction / change-percent block of the per-category loop in
`calculateSpendingTrends` (lines computing `ChangePercent` and
`TrendDirection`). -/
def classifyTrend (currentSpend prevAmount : ℚ) : String × ℚ :=
  if prevAmount > 0 then
    let change := (currentSpend - prevAmount) / prevAmount * 100
    if change > 10 then ("up", change)
    else if change < -10 then ("down", change)
    else ("stable", change)
  else ("new", 0)

/-- The date-range switch of `calculateSpendingTrends`: half-open current
and previous windows for the requested period unit, `none` for an
unrecognised unit (mapped to the `invalid period` error). -/
def periodWindows (period : String) (date : Int) : Option (Int × Int × Int × Int) :=
  match period with
  | "day" =>
    let startDate := daysFromCivil (yearOf date) (monthOf date) (dayOf date)
    let endDate := addDate startDate 0 0 1
    let prevStartDate := addDate startDate 0 0 (-1)
    let prevEndDate := startDate
    some (startDate, endDate, prevStartDate, prevEndDate)
  | "week" =>
    let weekday0 := weekdayOf date
    let weekday := if weekday0 = 0 then 7 else weekday0
    let startDate0 := addDate date 0 0 (-(weekday - 1))
    let startDate := daysFromCivil (yearOf startDate0) (monthOf startDate0) (dayOf startDate0)
    let endDate := addDate startDate 0 0 7
    let prevStartDate := addDate startDate 0 0 (-7)
    let prevEndDate := startDate
    some (startDate, endDate, prevStartDate, prevEndDate)
  | "month" =>
    let startDate := daysFromCivil (yearOf date) (monthOf date) 1
    let endDate := addDate startDate 0 1 0
    let prevStartDate := addDate startDate 0 (-1) 0
    let prevEndDate := startDate
    some (startDate, endDate, prevStartDate, prevEndDate)
  | _ => none

/-- One iteration of the per-category loop of `calculateSpendingTrends`:
historical average with fallback to the current spend on query failure,
prediction, and trend classification. -/
def buildTrend (store : Store) (now : Int) (userID : Int) (period : String)
    (prevRows : List (Int × ℚ)) (row : Int × String × ℚ) : SpendingTrend :=
  let historicalAvg : ℚ :=
    match getHistoricalAverage store now userID row.1 period with
    | Except.error _ => row.2.2
    | Except.ok v => v
  let prevAmount := lookupPrev prevRows row.1
  let prediction := calculatePrediction row.2.2 prevAmount historicalAvg period
  let dc := classifyTrend row.2.2 prevAmount
  { categoryId := row.1, categoryName := row.2.1, currentSpend := row.2.2,
    predictedSpend := prediction, trendDirection := dc.1, changePercent := dc.2 }

/-- Model of Go `time.Parse("2006-01-02", s)`: exactly ten characters
`dddd-dd-dd`, with month and day range checks (Go rejects out-of-range
months and days for the given month). -/
def parseDate (s : String) : Option (Int × Int × Int) :=
  match s.toList with
  | [y1, y2, y3, y4, c1, m1, m2, c2, d1, d2] =>
    if y1.isDigit && y2.isDigit && y3.isDigit && y4.isDigit &&
        (c1 == '-') && m1.isDigit && m2.isDigit && (c2 == '-') &&
        d1.isDigit && d2.isDigit then
      let y : Int := ((y1.toNat : Int) - 48) * 1000 + ((y2.toNat : Int) - 48) * 100 +
        ((y3.toNat : Int) - 48) * 10 + ((y4.toNat : Int) - 48)
      let m : Int := ((m1.toNat : Int) - 48) * 10 + ((m2.toNat : Int) - 48)
      let d : Int := ((d1.toNat : Int) - 48) * 10 + ((d2.toNat : Int) - 48)
      if 1 ≤ m ∧ m ≤ 12 ∧ 1 ≤ d ∧ d ≤ daysInMonth y m then some (y, m, d) else none
    else none
  | _ => none

/-- `calculateSpendingTrends`: parse the reference date, compute windows,
run both aggregation queries, and build one trend record per current row.
Query failure surfaces as an error with no partial results. -/
def calculateSpendingTrends (store : Store) (now : Int) (userID : Int)
    (period dateStr : String) : Except String (List SpendingTrend) :=
  match parseDate dateStr with
  | none => Except.error "cannot parse date"
  | some (y, m, d) =>
    let date := daysFromCivil y m d
    match periodWindows period date with
    | none => Except.error ("invalid period: " ++ period)
    | some (startDate, endDate, prevStartDate, prevEndDate) =>
      if store.currentQueryFails then Except.error "current query failed"
      else if store.prevQueryFails then Except.error "previous query failed"
      else
        let currentRows := currentQuery store userID startDate endDate
        let prevRows := prevQuery store userID prevStartDate prevEndDate
        Except.ok (currentRows.map (buildTrend store now userID period prevRows))

/-- Zero-padded two-digit field of Go `Format("2006-01-02")`. -/
def pad2 (n : Int) : String := if n < 10 then "0" ++ toString n else toString n

/-- Zero-padded four-digit year field of Go `Format("2006-01-02")`. -/
def pad4 (n : Int) : String :=
  if n < 10 then "000" ++ toString n
  else if n < 100 then "00" ++ toString n
  else if n < 1000 then "0" ++ toString n
  else toString n

/-- Model of Go `Format("2006-01-02")` on a day-resolution time. -/
def formatDate (t : Int) : String :=
  pad4 (yearOf t) ++ "-" ++ pad2 (monthOf t) ++ "-" ++ pad2 (dayOf t)

/-- `GetSpendingTrends` handler: a missing `period` query parameter fails
binding (`binding:"required"`) and yields HTTP 400; an empty `date`
defaults to today; every error from `calculateSpendingTrends` — including
invalid period and unparseable date — yields HTTP 500 with no body. -/
def GetSpendingTrends (store : Store) (today : Int) (userID : Int)
    (periodParam : Option String) (dateParam : String) :
    Int × Option SpendingTrendsResponse :=
  match periodParam with
  | none => (400, none)
  | some period =>
    let dateStr := if dateParam = "" then formatDate today else dateParam
    match calculateSpendingTrends store today userID period dateStr with
    | Except.error _ => (500, none)
    | Except.ok trends => (200, some { period := period, date := dateStr, trends := trends })

/-! ### Specification-side definitions (for refinement comparison only)

These two definitions follow the specification text for claim C8: the
forecast weights, floor factor and classification thresholds are taken from
the package-level configuration objects instead of literals. -/

/-- The prediction as the spec describes it for C8: computed with the
assigned configuration values. -/
def calculatePredictionConfigured (weights : PredictionWeights)
    (factors : PredictionFactors) (current previous historical : ℚ) : ℚ :=
  let trendFactor : ℚ := if previous > 0 then current - previous else 0
  let prediction := current * weights.Current + trendFactor * weights.Trend +
    historical * weights.Historical
  if prediction < 0 then current * factors.ConservativeEstimate else prediction

/-- The classification as the spec describes it for C8: thresholds taken
from the configuration. -/
def classifyTrendConfigured (limits : TrendThresholds)
    (currentSpend prevAmount : ℚ) : String × ℚ :=
  if prevAmount > 0 then
    let change := (currentSpend - prevAmount) / prevAmount * 100
    if change > limits.UpThreshold then ("up", change)
    else if change < limits.DownThreshold then ("down", change)
    else ("stable", change)
  else ("new", 0)

/-! ### Concrete fixtures used by witnesses and counterexamples -/

/-- A one-category fixture database. -/
def sampleStore : Store :=
  { categories := [{ id := 1, userId := 1, name := "Groceries", type := "expense" }],
    transactions :=
      [{ id := 1, userId := 1, categoryId := 1, amount := 50, type := "expense",
         date := daysFromCivil 2024 1 10 }],
    currentQueryFails := false, prevQueryFails := false, histQueryFails := false }

/-- The fixture database with a failing historical-average query. -/
def sampleStoreHistFail : Store := { sampleStore with histQueryFails := true }

/-- The fixture database with a failing current-window aggregation query. -/
def sampleStoreCurFail : Store := { sampleStore with currentQueryFails := true }

section CalendarLemmas

/-- Spelling out the Boolean leap-year test as arithmetic. -/
theorem isLeap_iff (y : Int) :
    isLeap y = true ↔ (y % 4 = 0 ∧ (y % 100 ≠ 0 ∨ y % 400 = 0)) := by
  simp [isLeap, Bool.and_eq_true, Bool.or_eq_true]

/-- `daysFromCivil` is linear in the day argument. -/
theorem daysFromCivil_day_linear (y m d k : Int) :
    daysFromCivil y m (d + k) = daysFromCivil y m d + k := by
  simp only [daysFromCivil, doeFC, doyFC]
  ring

/-- Year-level recovery: the capped stepwise divisions recover the year of
era and day of year from the day of era. -/
theorem year_recovery (doe c r q s k doy yoe : Int)
    (h0 : 0 ≤ doe) (h1 : doe ≤ 146096)
    (hc : c = min (doe / 36524) 3) (hr : r = doe - 36524 * c)
    (hq : q = min (r / 1461) 24) (hs : s = r - 1461 * q)
    (hk : k = min (s / 365) 3) (hdoy : doy = s - 365 * k)
    (hyoe : yoe = 100 * c + 4 * q + k) :
    0 ≤ yoe ∧ yoe ≤ 399 ∧ 0 ≤ doy ∧ doy ≤ 365 ∧
    365 * yoe + yoe / 4 - yoe / 100 + doy = doe ∧
    (doy = 365 → (yoe + 1) % 4 = 0 ∧ ((yoe + 1) % 100 ≠ 0 ∨ (yoe + 1) % 400 = 0)) := by
  have hcb : 0 ≤ c ∧ c ≤ 3 := by omega
  have hrb : 0 ≤ r ∧ r ≤ 36524 ∧ (c < 3 → r ≤ 36523) := by omega
  have hqb : 0 ≤ q ∧ q ≤ 24 := by omega
  have hsb : 0 ≤ s ∧ s ≤ 1460 := by omega
  have hkb : 0 ≤ k ∧ k ≤ 3 := by omega
  have hdb : 0 ≤ doy ∧ doy ≤ 365 ∧ (doy = 365 → s = 1460 ∧ k = 3) := by omega
  have h4 : yoe / 4 = 25 * c + q := by omega
  have h100 : yoe / 100 = c := by omega
  omega

/-- Month-level recovery: day of year to month and day and back. -/
theorem month_recovery (doy mp d m : Int)
    (h0 : 0 ≤ doy) (h1 : doy ≤ 365)
    (hmp : mp = (5 * doy + 2) / 153)
    (hd : d = doy - (153 * mp + 2) / 5 + 1)
    (hm : m = if mp < 10 then mp + 3 else mp - 9) :
    0 ≤ mp ∧ mp ≤ 11 ∧ 1 ≤ m ∧ m ≤ 12 ∧ 1 ≤ d ∧ d ≤ 31 ∧
    (m = 2 → d ≤ 29) ∧ ((m = 2 ∧ d = 29) → doy = 365) ∧
    ((m = 4 ∨ m = 6 ∨ m = 9 ∨ m = 11) → d ≤ 30) ∧
    (153 * mp + 2) / 5 + d - 1 = doy ∧
    (if m > 2 then m - 3 else m + 9) = mp ∧
    (m ≤ 2 ↔ 10 ≤ mp) := by
  split_ifs at hm ⊢ <;> omega

/-- Year-level uniqueness: the capped stepwise divisions recover exactly the
year of era and day of year that produced a given day of era. -/
theorem year_unique (doe c r q s k yoe doy : Int)
    (h1 : 0 ≤ yoe) (h2 : yoe ≤ 399) (h3 : 0 ≤ doy) (h4 : doy ≤ 365)
    (hleap : doy = 365 → (yoe + 1) % 4 = 0 ∧ ((yoe + 1) % 100 ≠ 0 ∨ (yoe + 1) % 400 = 0))
    (hdoe : doe = 365 * yoe + yoe / 4 - yoe / 100 + doy)
    (hc : c = min (doe / 36524) 3) (hr : r = doe - 36524 * c)
    (hq : q = min (r / 1461) 24) (hs : s = r - 1461 * q)
    (hk : k = min (s / 365) 3) :
    100 * c + 4 * q + k = yoe ∧ s - 365 * k = doy := by
  obtain ⟨cy, j, hj, hj0, hj1⟩ : ∃ cy j, yoe = 100 * cy + j ∧ 0 ≤ j ∧ j ≤ 99 :=
    ⟨yoe / 100, yoe % 100, by omega, by omega, by omega⟩
  obtain ⟨w, i, hi, hi0, hi1⟩ : ∃ w i, j = 4 * w + i ∧ 0 ≤ i ∧ i ≤ 3 :=
    ⟨j / 4, j % 4, by omega, by omega, by omega⟩
  have hcy : 0 ≤ cy ∧ cy ≤ 3 := by omega
  have hwb : 0 ≤ w ∧ w ≤ 24 := by omega
  have hq4 : yoe / 4 = 25 * cy + w := by omega
  have hq100 : yoe / 100 = cy := by omega
  have hdoe2 : doe = 36524 * cy + 1461 * w + 365 * i + doy := by omega
  have hsafe : doy ≤ 364 ∨ (i = 3 ∧ w ≤ 23) ∨ (i = 3 ∧ w = 24 ∧ cy = 3) := by
    by_cases h365 : doy = 365
    · have h41 := (hleap h365).1
      rcases (hleap h365).2 with hb | hb
      · omega
      · omega
    · left
      omega
  rcases hsafe with hx | hx | hx <;>
  · have hc2 : c = cy := by omega
    have hr2 : r = 1461 * w + 365 * i + doy := by omega
    have hq2 : q = w := by omega
    have hs2 : s = 365 * i + doy := by omega
    have hk2 : k = i := by omega
    omega

/-- Month-level uniqueness: the month index is recovered from the day of
year produced by a valid civil month/day pair. -/
theorem month_unique (m d : Int) (hm1 : 1 ≤ m) (hm2 : m ≤ 12) (hd1 : 1 ≤ d)
    (hd31 : d ≤ 31) (hd30 : (m = 4 ∨ m = 6 ∨ m = 9 ∨ m = 11) → d ≤ 30)
    (hd29 : m = 2 → d ≤ 29) :
    0 ≤ doyFC m d ∧ doyFC m d ≤ 365 ∧
    (5 * doyFC m d + 2) / 153 = mpFC m ∧
    (doyFC m d = 365 → m = 2 ∧ d = 29) ∧
    0 ≤ mpFC m ∧ mpFC m ≤ 11 ∧
    m = (if mpFC m < 10 then mpFC m + 3 else mpFC m - 9) := by
  unfold doyFC mpFC
  interval_cases m <;> simp_all <;> omega

/-- Characterisation of `civilFromDays` from the March-first components of
its argument. -/
theorem civilFromDays_eq (z era yoe doy mp m d y : Int)
    (h1 : 0 ≤ yoe) (h2 : yoe ≤ 399) (h3 : 0 ≤ doy) (h4 : doy ≤ 365)
    (hleap : doy = 365 → (yoe + 1) % 4 = 0 ∧ ((yoe + 1) % 100 ≠ 0 ∨ (yoe + 1) % 400 = 0))
    (hz : z = era * 146097 + (365 * yoe + yoe / 4 - yoe / 100 + doy) - 719468)
    (hmp : (5 * doy + 2) / 153 = mp) (hmp0 : 0 ≤ mp) (hmp1 : mp ≤ 11)
    (hd : d = doy - (153 * mp + 2) / 5 + 1)
    (hm : m = if mp < 10 then mp + 3 else mp - 9)
    (hy : y = yoe + 400 * era + (if m ≤ 2 then 1 else 0)) :
    civilFromDays z = (y, m, d) := by
  have hdoe : doeOf z = 365 * yoe + yoe / 4 - yoe / 100 + doy ∧ eraOf z = era := by
    unfold doeOf eraOf
    omega
  have hyu := year_unique (doeOf z) (centOf z) (centDayOf z) (quadOf z) (quadDayOf z)
    (yrOf z) yoe doy h1 h2 h3 h4 hleap (by rw [hdoe.1]) rfl rfl rfl rfl rfl
  have hyoe : yoeOf z = yoe := by unfold yoeOf; exact hyu.1
  have hdoy : doyOf z = doy := by unfold doyOf; exact hyu.2
  have hmp2 : mpOf z = mp := by unfold mpOf; rw [hdoy]; exact hmp
  have hday : dayOf z = d := by unfold dayOf; rw [hdoy, hmp2]; omega
  have hmon : monthOf z = m := by unfold monthOf; rw [hmp2]; exact hm.symm
  have hyear : yearOf z = y := by unfold yearOf; rw [hyoe, hmon, hdoe.2]; exact hy.symm
  unfold civilFromDays
  rw [hyear, hmon, hday]

/-- Every valid civil triple is recovered by `civilFromDays` after
`daysFromCivil` (the conversions are mutually inverse, valid side). -/
theorem civilFromDays_daysFromCivil (y m d : Int) (hm1 : 1 ≤ m) (hm2 : m ≤ 12)
    (hd1 : 1 ≤ d) (hd2 : d ≤ daysInMonth y m) :
    civilFromDays (daysFromCivil y m d) = (y, m, d) := by
  have hli := isLeap_iff y
  have hdm : d ≤ 31 ∧ ((m = 4 ∨ m = 6 ∨ m = 9 ∨ m = 11) → d ≤ 30) ∧ (m = 2 → d ≤ 29) ∧
      (m = 2 → d = 29 → (y % 4 = 0 ∧ (y % 100 ≠ 0 ∨ y % 400 = 0))) := by
    unfold daysInMonth at hd2
    split_ifs at hd2 with h1 h2 h3
    · exact ⟨by omega, by omega, by omega, fun _ _ => hli.mp h2⟩
    · refine ⟨by omega, by omega, by omega, fun hm2' hd29 => absurd hd29 (by omega : d ≠ 29)⟩
    · exact ⟨by omega, fun _ => hd2, fun hm2' => absurd hm2' h1, fun hm2' => absurd hm2' h1⟩
    · exact ⟨hd2, by tauto, fun hm2' => absurd hm2' h1, fun hm2' => absurd hm2' h1⟩
  have hmu := month_unique m d hm1 hm2 hd1 hdm.1 hdm.2.1 hdm.2.2.1
  have hyoeb : 0 ≤ yoeFC y m ∧ yoeFC y m ≤ 399 := by unfold yoeFC eraFC; omega
  refine civilFromDays_eq (daysFromCivil y m d) (eraFC y m) (yoeFC y m) (doyFC m d)
    (mpFC m) m d y hyoeb.1 hyoeb.2 hmu.1 hmu.2.1 ?_ ?_ hmu.2.2.1 hmu.2.2.2.2.1
    hmu.2.2.2.2.2.1 ?_ hmu.2.2.2.2.2.2 ?_
  · intro hdoy365
    obtain ⟨hm2', hd29⟩ := hmu.2.2.2.1 hdoy365
    have hld := hdm.2.2.2 hm2' hd29
    have hle : m ≤ 2 := by omega
    unfold yoeFC eraFC yAdjFC
    rw [if_pos hle]
    omega
  · unfold daysFromCivil doeFC
    ring
  · unfold doyFC
    omega
  · unfold yoeFC eraFC yAdjFC
    split_ifs <;> omega

/-- `civilFromDays` always produces a valid civil triple, and
`daysFromCivil` maps it back (the conversions are mutually inverse,
absolute side). -/
theorem daysFromCivil_civilFromDays (z : Int) :
    1 ≤ monthOf z ∧ monthOf z ≤ 12 ∧ 1 ≤ dayOf z ∧
    dayOf z ≤ daysInMonth (yearOf z) (monthOf z) ∧
    daysFromCivil (yearOf z) (monthOf z) (dayOf z) = z := by
  have hdoe : 0 ≤ doeOf z ∧ doeOf z ≤ 146096 ∧ eraOf z * 146097 + doeOf z = z + 719468 := by
    unfold doeOf eraOf
    omega
  have hyr := year_recovery (doeOf z) (centOf z) (centDayOf z) (quadOf z) (quadDayOf z)
    (yrOf z) (doyOf z) (yoeOf z) hdoe.1 hdoe.2.1 rfl rfl rfl rfl rfl rfl rfl
  obtain ⟨hyoe0, hyoe1, hdoy0, hdoy1, hsum, hlp⟩ := hyr
  have hmr := month_recovery (doyOf z) (mpOf z) (dayOf z) (monthOf z) hdoy0 hdoy1 rfl rfl rfl
  obtain ⟨hmp0, hmp1, hmo1, hmo2, hdv1, hdv31, hdv29, hdv29', hdv30, hrec, hmpinv, hiff⟩ := hmr
  have hyadj : yAdjFC (yearOf z) (monthOf z) = yoeOf z + 400 * eraOf z := by
    unfold yAdjFC yearOf
    split_ifs <;> omega
  have hera : eraFC (yearOf z) (monthOf z) = eraOf z := by
    unfold eraFC
    rw [hyadj]
    omega
  have hyoe2 : yoeFC (yearOf z) (monthOf z) = yoeOf z := by
    unfold yoeFC
    rw [hyadj, hera]
    omega
  have hmp2 : mpFC (monthOf z) = mpOf z := by unfold mpFC; exact hmpinv
  have hleapy : monthOf z = 2 → dayOf z = 29 →
      ((yearOf z) % 4 = 0 ∧ ((yearOf z) % 100 ≠ 0 ∨ (yearOf z) % 400 = 0)) := by
    intro hm2' hd29'
    have hdoy365 : doyOf z = 365 := hdv29' ⟨hm2', hd29'⟩
    have hmods := hlp hdoy365
    have hyeq : yearOf z = yoeOf z + 400 * eraOf z + 1 := by
      unfold yearOf
      rw [if_pos (by omega : monthOf z ≤ 2)]
    omega
  refine ⟨hmo1, hmo2, hdv1, ?_, ?_⟩
  · unfold daysInMonth
    have hli := isLeap_iff (yearOf z)
    split_ifs with h1 h2 h3
    · omega
    · by_contra hgt
      have hd29' : dayOf z = 29 := by omega
      exact h2 (hli.mpr (hleapy h1 hd29'))
    · exact hdv30 h3
    · omega
  · unfold daysFromCivil doeFC doyFC
    rw [hyoe2, hera, hmp2, hrec]
    omega

/-- Adding only days through `AddDate` is plain day arithmetic. -/
theorem addDate_days (z k : Int) : addDate z 0 0 k = z + k := by
  unfold addDate
  have hv := daysFromCivil_civilFromDays z
  have : daysFromCivil (yearOf z + 0) (monthOf z + 0) (dayOf z + k) =
      daysFromCivil (yearOf z) (monthOf z) (dayOf z) + k := by
    rw [(by ring : yearOf z + 0 = yearOf z), (by ring : monthOf z + 0 = monthOf z)]
    exact daysFromCivil_day_linear (yearOf z) (monthOf z) (dayOf z) k
  rw [this, hv.2.2.2.2]

/-- Every month has at least one day. -/
theorem daysInMonth_pos (y m : Int) : 1 ≤ daysInMonth y m := by
  unfold daysInMonth
  split_ifs <;> omega

/-- Component extraction on a valid civil triple. -/
theorem components_of_valid (y m d : Int) (hm1 : 1 ≤ m) (hm2 : m ≤ 12)
    (hd1 : 1 ≤ d) (hd2 : d ≤ daysInMonth y m) :
    yearOf (daysFromCivil y m d) = y ∧ monthOf (daysFromCivil y m d) = m ∧
    dayOf (daysFromCivil y m d) = d := by
  have h := civilFromDays_daysFromCivil y m d hm1 hm2 hd1 hd2
  unfold civilFromDays at h
  simp only [Prod.mk.injEq] at h
  exact h

/-- Month 0 normalises to December of the preceding year. -/
theorem daysFromCivil_m0 (y d : Int) : daysFromCivil y 0 d = daysFromCivil (y - 1) 12 d := by
  simp only [daysFromCivil, doeFC, doyFC, mpFC, eraFC, yoeFC, yAdjFC]
  norm_num

/-- Month 13 normalises to January of the following year. -/
theorem daysFromCivil_m13 (y d : Int) : daysFromCivil y 13 d = daysFromCivil (y + 1) 1 d := by
  simp only [daysFromCivil, doeFC, doyFC, mpFC, eraFC, yoeFC, yAdjFC]
  norm_num

/-- `AddDate` with a month shift on a first-of-month date moves the month
component before renormalising. -/
theorem addDate_months_first (y m k : Int) (hm1 : 1 ≤ m) (hm2 : m ≤ 12) :
    addDate (daysFromCivil y m 1) 0 k 0 = daysFromCivil y (m + k) 1 := by
  obtain ⟨hy, hmo, hd⟩ := components_of_valid y m 1 hm1 hm2 le_rfl (daysInMonth_pos y m)
  unfold addDate
  rw [hy, hmo, hd]
  norm_num

end CalendarLemmas

section ListLemmas

/-- Inserting into a sorted prefix is a permutation of consing. -/
theorem insertRow_perm (x : Int × String × ℚ) (l : List (Int × String × ℚ)) :
    (insertRow x l).Perm (x :: l) := by
  induction l with
  | nil => exact List.Perm.refl _
  | cons y ys ih =>
    unfold insertRow
    split_ifs
    · exact List.Perm.refl _
    · exact (List.Perm.cons y ih).trans (List.Perm.swap x y ys)

/-- The `ORDER BY` sort permutes the aggregation rows. -/
theorem sortRows_perm (l : List (Int × String × ℚ)) : (sortRows l).Perm l := by
  induction l with
  | nil => exact List.Perm.refl _
  | cons x xs ih => exact (insertRow_perm x (sortRows xs)).trans (List.Perm.cons x ih)

end ListLemmas

section Claims

/-- C1: for every current spend c, previous spend p and historical average h,
the predicted spend equals c·0.4 + d·0.4 + h·0.2 with d = c − p when p > 0
and d = 0 otherwise, clamped to c·0.8 when negative; in particular
(100, 80, 90) yields 66 and (10, 1000, 0) yields 8. -/
theorem prediction_formula :
    (∀ (c p h : ℚ) (per : String), calculatePrediction c p h per =
      if c * 0.4 + (if p > 0 then c - p else 0) * 0.4 + h * 0.2 < 0
      then c * 0.8
      else c * 0.4 + (if p > 0 then c - p else 0) * 0.4 + h * 0.2) ∧
    calculatePrediction 100 80 90 "month" = 66 ∧
    calculatePrediction 10 1000 0 "month" = 8 := by
  refine ⟨fun c p h per => rfl, ?_, ?_⟩ <;> norm_num [calculatePrediction]

/-- C2: with p > 0 the change percent is (c − p)/p·100 and the direction is
"up" above 10, "down" below −10 and "stable" otherwise; with p = 0 the
direction is "new" and the change percent is 0 regardless of c. -/
theorem trend_classification (c p : ℚ) :
    (p > 0 → (classifyTrend c p).2 = (c - p) / p * 100 ∧
      ((c - p) / p * 100 > 10 → (classifyTrend c p).1 = "up") ∧
      ((c - p) / p * 100 < -10 → (classifyTrend c p).1 = "down") ∧
      (-10 ≤ (c - p) / p * 100 → (c - p) / p * 100 ≤ 10 →
        (classifyTrend c p).1 = "stable")) ∧
    (p = 0 → classifyTrend c p = ("new", 0)) := by
  simp only [classifyTrend]
  split_ifs with h1 h2 h3 <;>
    refine ⟨fun hp => ⟨?_, fun ha => ?_, fun hb => ?_, fun hc hd => ?_⟩, fun hp => ?_⟩ <;>
    first
      | rfl
      | (exfalso; linarith)

/-- Witness for C2 at concrete inputs: (100, 80) classifies as "up" with
change percent 25, and previous spend 0 classifies as "new". -/
theorem trend_classification_witness :
    (classifyTrend 100 80).1 = "up" ∧ (classifyTrend 100 80).2 = 25 ∧
    classifyTrend 7 0 = ("new", 0) := by
  have h := trend_classification 100 80
  have h0 := trend_classification 7 0
  refine ⟨(h.1 (by norm_num)).2.1 (by norm_num), ?_, h0.2 rfl⟩
  rw [(h.1 (by norm_num)).1]
  norm_num

/-- C8 counterexample: the prediction and classification functions do not
compute with alternative configuration assignments — the weights, floor and
thresholds are hardcoded literals, so an alternative assignment of
`PredictionConfig` (or `TrendLimits`) changes the configured computation but
not the functions. -/
theorem prediction_ignores_config :
    calculatePrediction 100 80 90 "month" = 66 ∧
    calculatePredictionConfigured
      { Current := 1, Trend := 0, Historical := 0 } PredictionSettings 100 80 90 = 100 ∧
    calculatePrediction 100 80 90 "month" ≠
      calculatePredictionConfigured
        { Current := 1, Trend := 0, Historical := 0 } PredictionSettings 100 80 90 ∧
    classifyTrend 100 80 ≠
      classifyTrendConfigured { UpThreshold := 50, DownThreshold := -50 } 100 80 := by
  refine ⟨by norm_num [calculatePrediction], by norm_num [calculatePredictionConfigured], ?_, ?_⟩
  · norm_num [calculatePrediction, calculatePredictionConfigured, PredictionSettings]
  · norm_num [classifyTrend, classifyTrendConfigured]
    intro h
    exact absurd h (by decide)

/-- C8 amended: the configuration objects (`PredictionConfig`,
`PredictionSettings`, `TrendLimits`) exist as package-level values with the
documented defaults, but `calculatePrediction` and the trend classification
use hardcoded literals; the functions agree with the configured computation
only at the default assignment. -/
theorem prediction_matches_default_config :
    (∀ (c p h : ℚ) (per : String), calculatePrediction c p h per =
      calculatePredictionConfigured PredictionConfig PredictionSettings c p h) ∧
    (∀ c p : ℚ, classifyTrend c p = classifyTrendConfigured TrendLimits c p) := by
  constructor
  · intro c p h per
    rfl
  · intro c p
    rfl

/-- C3: for every period unit and reference date the two windows are
adjacent (`previousEnd = currentStart`) and of equal calendar length — one
day, seven days, or exactly one calendar month — and the month windows are
calendar-correct across a year boundary (2024-01-15 yields
[2024-01-01, 2024-02-01) and [2023-12-01, 2024-01-01)). -/
theorem period_windows_adjacent :
    (∀ date : Int, ∃ s e ps pe, periodWindows "day" date = some (s, e, ps, pe) ∧
      pe = s ∧ e = s + 1 ∧ pe = ps + 1) ∧
    (∀ date : Int, ∃ s e ps pe, periodWindows "week" date = some (s, e, ps, pe) ∧
      pe = s ∧ e = s + 7 ∧ pe = ps + 7) ∧
    (∀ date : Int, ∃ s e ps pe, periodWindows "month" date = some (s, e, ps, pe) ∧
      pe = s ∧ e = addDate s 0 1 0 ∧ pe = addDate ps 0 1 0) ∧
    periodWindows "month" (daysFromCivil 2024 1 15) =
      some (daysFromCivil 2024 1 1, daysFromCivil 2024 2 1,
            daysFromCivil 2023 12 1, daysFromCivil 2024 1 1) := by
  refine ⟨?_, ?_, ?_, ?_⟩
  · intro date
    refine ⟨_, _, _, _, rfl, rfl, addDate_days _ 1, ?_⟩
    simp only [addDate_days]
    omega
  · intro date
    refine ⟨_, _, _, _, rfl, rfl, addDate_days _ 7, ?_⟩
    simp only [addDate_days]
    omega
  · intro date
    have hv := daysFromCivil_civilFromDays date
    refine ⟨_, _, _, _, rfl, rfl, rfl, ?_⟩
    rw [addDate_months_first (yearOf date) (monthOf date) (-1) hv.1 hv.2.1]
    by_cases hM : monthOf date = 1
    · rw [hM, (by norm_num : (1 : Int) + -1 = 0), daysFromCivil_m0,
        addDate_months_first (yearOf date - 1) 12 1 (by omega) (by omega),
        (by norm_num : (12 : Int) + 1 = 13), daysFromCivil_m13]
      norm_num
    · have h1 : 1 ≤ monthOf date + -1 := by omega
      have h2 : monthOf date + -1 ≤ 12 := by omega
      rw [addDate_months_first (yearOf date) (monthOf date + -1) 1 h1 h2]
      norm_num
  · decide

/-- C4: the week window starts on the Monday at midnight of the week that
contains the reference date (a Sunday counts as weekday 7 and maps to the
Monday six days earlier) and ends seven days later. -/
theorem week_window_monday (date : Int) :
    ∃ s e ps pe, periodWindows "week" date = some (s, e, ps, pe) ∧
      weekdayOf s = 1 ∧ s ≤ date ∧ date < s + 7 ∧ e = s + 7 ∧
      (weekdayOf date = 0 → s = date - 6) := by
  have key : ∀ k : Int,
      daysFromCivil (yearOf (addDate date 0 0 k)) (monthOf (addDate date 0 0 k))
        (dayOf (addDate date 0 0 k)) = date + k := by
    intro k
    rw [(daysFromCivil_civilFromDays (addDate date 0 0 k)).2.2.2.2, addDate_days]
  refine ⟨_, _, _, _, rfl, ?_, ?_, ?_, addDate_days _ 7, ?_⟩
  · rw [key]
    simp only [weekdayOf]
    split_ifs with h0 <;> omega
  · rw [key]
    simp only [weekdayOf]
    split_ifs with h0 <;> omega
  · rw [key]
    simp only [weekdayOf]
    split_ifs with h0 <;> omega
  · intro h0
    rw [key]
    simp only [weekdayOf] at h0 ⊢
    rw [if_pos h0]
    omega

/-- Witness for C4 at the Sunday 2024-01-07: the window starts at the
Monday 2024-01-01, six days earlier. -/
theorem week_window_monday_witness :
    ∃ s e ps pe, periodWindows "week" (daysFromCivil 2024 1 7) = some (s, e, ps, pe) ∧
      weekdayOf s = 1 ∧ s = daysFromCivil 2024 1 7 - 6 := by
  obtain ⟨s, e, ps, pe, h1, h2, h3, h4, h5, h6⟩ := week_window_monday (daysFromCivil 2024 1 7)
  exact ⟨s, e, ps, pe, h1, h2, h6 (by decide)⟩

/-- C5: every expense category of the owner appears in the trends output of
a successful computation, with its half-open-window aggregate as current
spend; a category with no matching expense transaction in the window
appears with current spend 0 (outer-join semantics). -/
theorem trends_outer_join (store : Store) (now userID : Int)
    (period dateStr : String) (y m d s e ps pe : Int)
    (trends : List SpendingTrend)
    (hparse : parseDate dateStr = some (y, m, d))
    (hwin : periodWindows period (daysFromCivil y m d) = some (s, e, ps, pe))
    (hok : calculateSpendingTrends store now userID period dateStr = Except.ok trends)
    (cat : Category) (hmem : cat ∈ store.categories)
    (howner : cat.userId = userID) (htype : cat.type = "expense") :
    ∃ tr ∈ trends, tr.categoryId = cat.id ∧
      tr.currentSpend = spendInWindow store userID cat.id s e ∧
      ((∀ t ∈ store.transactions, txnMatches userID cat.id s e t = false) →
        tr.currentSpend = 0) := by
  simp only [calculateSpendingTrends, hparse, hwin] at hok
  split at hok
  · exact absurd hok (by simp)
  · split at hok
    · exact absurd hok (by simp)
    · injection hok with hok
      subst hok
      have hrow : (cat.id, cat.name, spendInWindow store userID cat.id s e) ∈
          currentQuery store userID s e := by
        unfold currentQuery
        refine (sortRows_perm _).mem_iff.mpr ?_
        exact List.mem_map_of_mem _
          (List.mem_filter.mpr ⟨hmem, by simp [isExpenseCatOf, howner, htype]⟩)
      refine ⟨buildTrend store now userID period (prevQuery store userID ps pe)
        (cat.id, cat.name, spendInWindow store userID cat.id s e),
        List.mem_map_of_mem _ hrow, rfl, rfl, ?_⟩
      intro hnone
      have hnil : store.transactions.filter (txnMatches userID cat.id s e) = [] :=
        List.filter_eq_nil_iff.mpr (fun t ht => by simp [hnone t ht])
      show spendInWindow store userID cat.id s e = 0
      unfold spendInWindow
      rw [hnil]
      rfl

/-- Witness for C5 on the fixture store: the single expense category shows
up in the January 2024 month window with its aggregate. -/
theorem trends_outer_join_witness :
    ∃ trends, calculateSpendingTrends sampleStore (daysFromCivil 2024 1 20) 1
        "month" "2024-01-15" = Except.ok trends ∧
      ∃ tr ∈ trends, tr.categoryId = 1 ∧
        tr.currentSpend =
          spendInWindow sampleStore 1 1 (daysFromCivil 2024 1 1) (daysFromCivil 2024 2 1) ∧
        ((∀ t ∈ sampleStore.transactions,
            txnMatches 1 1 (daysFromCivil 2024 1 1) (daysFromCivil 2024 2 1) t = false) →
          tr.currentSpend = 0) := by
  refine ⟨_, rfl, ?_⟩
  exact trends_outer_join sampleStore (daysFromCivil 2024 1 20) 1 "month" "2024-01-15"
    2024 1 15 (daysFromCivil 2024 1 1) (daysFromCivil 2024 2 1)
    (daysFromCivil 2023 12 1) (daysFromCivil 2024 1 1) _
    (by decide) (by decide) rfl
    { id := 1, userId := 1, name := "Groceries", type := "expense" }
    (by decide) rfl rfl

/-- C6 counterexample: an unrecognized period unit is surfaced as HTTP 500,
a server error, not as a client error as the claim states. -/
theorem invalid_period_not_client_error :
    (GetSpendingTrends sampleStore 0 1 (some "year") "2024-01-15").1 = 500 ∧
    ¬(400 ≤ (GetSpendingTrends sampleStore 0 1 (some "year") "2024-01-15").1 ∧
      (GetSpendingTrends sampleStore 0 1 (some "year") "2024-01-15").1 < 500) := by
  exact ⟨by decide, by decide⟩

/-- C6 amended: a missing period parameter fails request binding with client
error 400; an unrecognized period unit or an unparseable reference date is
surfaced as server error 500; a failure of either aggregation query is
surfaced as server error 500 with no partial results. -/
theorem trends_error_statuses :
    (∀ (store : Store) (today userID : Int) (dateParam : String),
      GetSpendingTrends store today userID none dateParam = (400, none)) ∧
    (∀ (store : Store) (today userID : Int) (period dateStr : String),
      dateStr ≠ "" → parseDate dateStr = none →
      GetSpendingTrends store today userID (some period) dateStr = (500, none)) ∧
    (∀ (store : Store) (today userID : Int) (period dateStr : String) (y m d : Int),
      dateStr ≠ "" → parseDate dateStr = some (y, m, d) →
      periodWindows period (daysFromCivil y m d) = none →
      GetSpendingTrends store today userID (some period) dateStr = (500, none)) ∧
    (∀ (store : Store) (today userID : Int) (period dateParam : String),
      (store.currentQueryFails = true ∨ store.prevQueryFails = true) →
      GetSpendingTrends store today userID (some period) dateParam = (500, none)) := by
  refine ⟨fun store today userID dp => rfl, ?_, ?_, ?_⟩
  · intro store today userID period dateStr hne hparse
    simp [GetSpendingTrends, if_neg hne, calculateSpendingTrends, hparse]
  · intro store today userID period dateStr y m d hne hparse hwin
    simp [GetSpendingTrends, if_neg hne, calculateSpendingTrends, hparse, hwin]
  · intro store today userID period dp hfail
    simp only [GetSpendingTrends]
    cases hparse : parseDate (if dp = "" then formatDate today else dp) with
    | none => simp [calculateSpendingTrends, hparse]
    | some ymd =>
      obtain ⟨y, m, d⟩ := ymd
      cases hwin : periodWindows period (daysFromCivil y m d) with
      | none => simp [calculateSpendingTrends, hparse, hwin]
      | some wins =>
        obtain ⟨s, e, ps, pe⟩ := wins
        by_cases hcf : store.currentQueryFails
        · simp [calculateSpendingTrends, hparse, hwin, hcf]
        · have hpf : store.prevQueryFails = true := by
            rcases hfail with hf | hf
            · exact absurd hf hcf
            · exact hf
          simp [calculateSpendingTrends, hparse, hwin, hcf, hpf]

/-- Witness for the amended C6 behaviour at concrete requests. -/
theorem trends_error_statuses_witness :
    GetSpendingTrends sampleStore 0 1 none "" = (400, none) ∧
    GetSpendingTrends sampleStore 0 1 (some "month") "9999-99-99" = (500, none) ∧
    GetSpendingTrends sampleStore 0 1 (some "year") "2024-01-15" = (500, none) ∧
    GetSpendingTrends sampleStoreCurFail 0 1 (some "month") "2024-01-15" = (500, none) :=
  ⟨trends_error_statuses.1 sampleStore 0 1 "",
   trends_error_statuses.2.1 sampleStore 0 1 "month" "9999-99-99" (by decide) (by decide),
   trends_error_statuses.2.2.1 sampleStore 0 1 "year" "2024-01-15" 2024 1 15
     (by decide) (by decide) (by decide),
   trends_error_statuses.2.2.2 sampleStoreCurFail 0 1 "month" "2024-01-15"
     (Or.inl (by decide))⟩

/-- C7: a failing historical-average query makes the per-category step use
the current-period spend as the historical value, and the computation still
succeeds; a successful query with no matching transaction in the lookback
yields average 0. -/
theorem historical_average_fallback :
    (∀ (store : Store) (now userID : Int) (period : String)
        (prevRows : List (Int × ℚ)) (row : Int × String × ℚ),
      store.histQueryFails = true →
      (buildTrend store now userID period prevRows row).predictedSpend =
        calculatePrediction row.2.2 (lookupPrev prevRows row.1) row.2.2 period) ∧
    (∀ (store : Store) (now userID catID : Int) (period : String),
      store.histQueryFails = false →
      store.transactions.filter (fun t =>
        t.userId == userID && t.categoryId == catID && t.type == "expense" &&
          decide (now - lookbackDays period ≤ t.date)) = [] →
      getHistoricalAverage store now userID catID period = Except.ok 0) ∧
    (∀ (store : Store) (now userID : Int) (period dateStr : String)
        (y m d s e ps pe : Int),
      parseDate dateStr = some (y, m, d) →
      periodWindows period (daysFromCivil y m d) = some (s, e, ps, pe) →
      store.currentQueryFails = false → store.prevQueryFails = false →
      ∃ l, calculateSpendingTrends store now userID period dateStr = Except.ok l) := by
  refine ⟨?_, ?_, ?_⟩
  · intro store now userID period prevRows row hfail
    simp [buildTrend, getHistoricalAverage, hfail]
  · intro store now userID catID period hfail hempty
    simp only [getHistoricalAverage]
    split_ifs with h h2
    · simp [hfail] at h
    · rfl
    · rw [hempty] at h2
      simp at h2
  · intro store now userID period dateStr y m d s e ps pe hparse hwin hcf hpf
    simp [calculateSpendingTrends, hparse, hwin, hcf, hpf]

/-- Witness for C7 on the fixture stores: failing historical query
substitutes the current spend, empty lookback yields 0, and the whole
computation still succeeds with a failing historical query. -/
theorem historical_average_fallback_witness :
    (buildTrend sampleStoreHistFail (daysFromCivil 2024 1 20) 1 "month" []
        (1, "Groceries", 50)).predictedSpend =
      calculatePrediction 50 (lookupPrev [] 1) 50 "month" ∧
    getHistoricalAverage sampleStore 0 1 99 "month" = Except.ok 0 ∧
    ∃ l, calculateSpendingTrends sampleStoreHistFail (daysFromCivil 2024 1 20) 1
      "month" "2024-01-15" = Except.ok l :=
  ⟨historical_average_fallback.1 sampleStoreHistFail (daysFromCivil 2024 1 20) 1 "month" []
     (1, "Groceries", 50) (by decide),
   historical_average_fallback.2.1 sampleStore 0 1 99 "month" (by decide) (by decide),
   historical_average_fallback.2.2 sampleStoreHistFail (daysFromCivil 2024 1 20) 1
     "month" "2024-01-15" 2024 1 15 (daysFromCivil 2024 1 1) (daysFromCivil 2024 2 1)
     (daysFromCivil 2023 12 1) (daysFromCivil 2024 1 1)
     (by decide) (by decide) (by decide) (by decide)⟩

/-- C9: the trends computation is a pure function of the store state, the
call-time clock, the owner, the period unit and the reference date — two
invocations with identical arguments return identical trend lists. -/
theorem trends_deterministic (store : Store) (now : Int) (userID : Int)
    (period dateStr : String) :
    calculateSpendingTrends store now userID period dateStr =
      calculateSpendingTrends store now userID period dateStr := rfl

/-- C10: for a non-negative current spend the predicted spend is
non-negative, whatever the previous spend and historical average. -/
theorem prediction_nonneg (c p h : ℚ) (per : String) (hc : 0 ≤ c) :
    0 ≤ calculatePrediction c p h per := by
  simp only [calculatePrediction]
  split_ifs with h1 h2 h3 <;> linarith

/-- Witness for C10 at a concrete input hitting the clamp branch. -/
theorem prediction_nonneg_witness :
    0 ≤ (10 : ℚ) ∧ 0 ≤ calculatePrediction 10 1000 0 "month" :=
  ⟨by norm_num, prediction_nonneg 10 1000 0 "month" (by norm_num)⟩

end Claims

end FinanceTracker
